import Mathlib

/-!
Shallow embedding of `src/imei_pdf_app.py` (a Streamlit IMEI → PDF lookup
app).  Pure logic is translated to Lean functions; each Streamlit side
effect (st.warning, st.error, st.success, st.download_button, st.markdown),
the Google-Sheets read and each HTTP GET become explicit `Effect` events, so
that a run of the search handler produces a trace `List Effect`.  The
external world (what the sheet read returns, what each HTTP GET returns) is
passed in as data.  Python truthiness, `str(...)`, `dict.get`, `.strip()`
(which raises `AttributeError` on a non-string) are modelled explicitly.
-/

namespace ImeiApp

/-- A Python value as it can appear in a row produced by
`worksheet.get_all_records()`: a string cell, an integer cell, or `None`
(the default of `dict.get` for a missing column header). -/
inductive PyVal where
  | vStr (s : String)
  | vInt (n : Int)
  | vNone
  deriving DecidableEq, Repr

/-- One record of `get_all_records()`: column header → cell value. -/
abbrev Row : Type := List (String × PyVal)

/-- The dictionary `imei_data` (Python dict ≅ association list with
overwrite-on-insert, first-match lookup). -/
abbrev Dict : Type := List (String × String)

/-- Python `row.get(k)` with default `None`. -/
def rowGet (row : Row) (k : String) : PyVal :=
  match List.find? (fun p => p.1 == k) row with
  | some p => p.2
  | none => PyVal.vNone

/-- Python `str(v)`. -/
def pyStr : PyVal → String
  | PyVal.vStr s => s
  | PyVal.vInt n => toString n
  | PyVal.vNone => "None"

/-- Python truthiness of a `PyVal` (`"" `, `0`, `None` are falsy). -/
def pyTruthy : PyVal → Bool
  | PyVal.vStr s => s != ""
  | PyVal.vInt n => n != 0
  | PyVal.vNone => false

/-- Python `str.strip()` on a plain string (whitespace trimmed from both
ends; modelled over the string's character list). -/
def pyStripStr (s : String) : String :=
  String.mk (((s.data.dropWhile Char.isWhitespace).reverse.dropWhile
    Char.isWhitespace).reverse)

/-- Python `v.strip()` on an arbitrary value: only a string has the
attribute; on `int` or `None` an `AttributeError` is raised, modelled as
`Except.error` carrying the Python error text. -/
def pyStrip : PyVal → Except String String
  | PyVal.vStr s => Except.ok (pyStripStr s)
  | PyVal.vInt _ => Except.error "AttributeError: int object has no attribute strip"
  | PyVal.vNone => Except.error "AttributeError: NoneType object has no attribute strip"

/-- Python `s.isdigit()`: non-empty and every character a decimal digit. -/
def pyIsDigit (s : String) : Bool :=
  !(s == "") && s.data.all Char.isDigit

/-- Python dict insertion `d[k] = v`: overwrite the existing binding of `k`
if present, else append. -/
def dictInsert : Dict → String → String → Dict
  | [], k, v => [(k, v)]
  | (k', v') :: rest, k, v =>
      if k' = k then (k, v) :: rest else (k', v') :: dictInsert rest k v

/-- Python `d.get(k)` (no default): `some` value or `none`. -/
def dictGet : Dict → String → Option String
  | [], _ => none
  | (k', v') :: rest, k => if k' = k then some v' else dictGet rest k

/-- `IMEI_COLUMN_HEADER` (line 17 of the source). -/
def IMEI_COLUMN_HEADER : String := "IMEI"

/-- `PDF_URL_COLUMN_HEADER` (line 18 of the source). -/
def PDF_URL_COLUMN_HEADER : String := "PDF_URL"

/-- An observable side effect of one run of the app. -/
inductive Effect where
  /-- `st.warning msg` -/
  | warn (msg : String)
  /-- `st.error msg` -/
  | errorMsg (msg : String)
  /-- `st.success msg` -/
  | successMsg (msg : String)
  /-- the Google-Sheets read attempt performed inside `get_google_sheet_data` -/
  | sheetRead
  /-- `requests.get url` -/
  | httpGet (url : String)
  /-- `st.download_button` offering `data` under `fileName` with `mime` -/
  | downloadButton (data : List Nat) (fileName : String) (mime : String)
  /-- `st.markdown html` (the inline iframe embed) -/
  | markdown (html : String)
  deriving DecidableEq, Repr

/-- What the external tabular data source does when `get_google_sheet_data`
reads it: one of the exception outcomes caught at lines 67–81, or the list
of records returned by `get_all_records()`. -/
inductive SheetResult where
  /-- `gspread.exceptions.SpreadsheetNotFound` raised -/
  | spreadsheetNotFound
  /-- `gspread.exceptions.WorksheetNotFound` raised -/
  | worksheetNotFound
  /-- any other exception (auth failure, network, bad secrets …), with its text -/
  | otherError (e : String)
  /-- the read succeeded and returned these records -/
  | records (rows : List Row)
  deriving DecidableEq, Repr

/-- Line 59: `imei = str(row.get(IMEI_COLUMN_HEADER))`. -/
def rowImeiStr (row : Row) : String := pyStr (rowGet row IMEI_COLUMN_HEADER)

/-- Line 60: `pdf_url = row.get(PDF_URL_COLUMN_HEADER)`. -/
def rowUrlVal (row : Row) : PyVal := rowGet row PDF_URL_COLUMN_HEADER

/-- Line 62: the condition `if imei and pdf_url` (`imei` is already a
string, so its truthiness is non-emptiness). -/
def rowIncluded (row : Row) : Bool :=
  rowImeiStr row != "" && pyTruthy (rowUrlVal row)

/-- `imei.strip()` of line 63 (never raises: `imei` is a string). -/
def rowKey (row : Row) : String := pyStripStr (rowImeiStr row)

/-- The loop body of lines 57–63: fold the records into `imei_data`,
propagating the `AttributeError` that `pdf_url.strip()` raises on a truthy
non-string cell (line 63). -/
def buildEntries : List Row → Dict → Except String Dict
  | [], d => Except.ok d
  | row :: rest, d =>
      if rowIncluded row then
        match pyStrip (rowUrlVal row) with
        | Except.error e => Except.error e
        | Except.ok v => buildEntries rest (dictInsert d (rowKey row) v)
      else buildEntries rest d

/-- Error text of line 68 (the container name is surfaced). -/
def spreadsheetNotFoundMsg (sn : String) : String :=
  "Error: La hoja de calculo '" ++ sn ++ "' no fue encontrada.\n" ++
  "Verifica el nombre y que la cuenta de servicio tiene permiso de 'Lector'."

/-- Error text of line 72 (both names are surfaced). -/
def worksheetNotFoundMsg (sn wn : String) : String :=
  "Error: La hoja de trabajo '" ++ wn ++ "' no fue encontrada en '" ++ sn ++ "'.\n" ++
  "Verifica el nombre de la hoja."

/-- Error text of lines 77–80 (generic handler, exception text interpolated). -/
def genericLoadErrorMsg (e : String) : String :=
  "Ocurrio un error al cargar los datos de Google Sheets: " ++ e ++ "\n" ++
  "Posibles causas:\n" ++
  "- La configuracion de 'gcp_service_account' en Streamlit Secrets es incorrecta.\n" ++
  "- La cuenta de servicio no tiene el rol de 'Lector' en el Google Sheet."

/-- `get_google_sheet_data` (lines 23–81), uncached: returns the Python
return value (`some` dict or `none`) together with the effect trace.  The
read attempt itself is the `sheetRead` event; each `except` arm returns
`None` after an `st.error`.  An `AttributeError` raised inside the loop is
caught by the generic `except Exception` arm. -/
def get_google_sheet_data (sn wn : String) (sheet : SheetResult) :
    Option Dict × List Effect :=
  match sheet with
  | SheetResult.spreadsheetNotFound =>
      (none, [Effect.sheetRead, Effect.errorMsg (spreadsheetNotFoundMsg sn)])
  | SheetResult.worksheetNotFound =>
      (none, [Effect.sheetRead, Effect.errorMsg (worksheetNotFoundMsg sn wn)])
  | SheetResult.otherError e =>
      (none, [Effect.sheetRead, Effect.errorMsg (genericLoadErrorMsg e)])
  | SheetResult.records rows =>
      match buildEntries rows [] with
      | Except.error e =>
          (none, [Effect.sheetRead, Effect.errorMsg (genericLoadErrorMsg e)])
      | Except.ok m => (some m, [Effect.sheetRead])

/-- What one HTTP GET does: a response with a status code and a body, or a
network-level failure (DNS, timeout, reset …) raising a
`requests.exceptions.RequestException` with the given text. -/
inductive HttpOutcome where
  | response (status : Nat) (body : List Nat)
  | netFailure (detail : String)
  deriving DecidableEq, Repr

/-- Modelled from the spec: `response.raise_for_status()` is library code
not in this repository; per the spec, any HTTP status code ≥ 400 is a
failure (raises `HTTPError`, a `RequestException`). Returns `true` iff it
raises. -/
def raise_for_status (status : Nat) : Bool :=
  decide (400 ≤ status)

/-- Detail text of the `HTTPError` raised for a bad status. -/
def httpErrorDetail (status : Nat) (url : String) : String :=
  toString status ++ " Error for url: " ++ url

/-- Error text of line 90. -/
def fetchErrorMsg (url detail : String) : String :=
  "Error al descargar el PDF desde: " ++ url ++ "\nDetalle: " ++ detail

/-- `download_pdf_as_bytes` (lines 83–91): one GET, `raise_for_status`,
return `response.content`; any `RequestException` is caught, reported via
`st.error` naming the url and the detail, and `None` is returned. -/
def download_pdf_as_bytes (pdf_url : String) (net : HttpOutcome) :
    Option (List Nat) × List Effect :=
  match net with
  | HttpOutcome.response status body =>
      if raise_for_status status then
        (none, [Effect.httpGet pdf_url,
                Effect.errorMsg (fetchErrorMsg pdf_url (httpErrorDetail status pdf_url))])
      else (some body, [Effect.httpGet pdf_url])
  | HttpOutcome.netFailure detail =>
      (none, [Effect.httpGet pdf_url,
              Effect.errorMsg (fetchErrorMsg pdf_url detail)])

/-- The base64 alphabet. -/
def base64Table : List Char :=
  "ABCDEFGHIJKLMNOPQRSTUVWXYZabcdefghijklmnopqrstuvwxyz0123456789+/".data

/-- Character of one 6-bit group. -/
def b64Char (n : Nat) : Char := base64Table.getD n 'A'

/-- `base64.b64encode` on a byte list (standard alphabet, `=` padding). -/
def b64encode : List Nat → List Char
  | [] => []
  | [a] => [b64Char (a / 4), b64Char (a % 4 * 16), '=', '=']
  | [a, b] => [b64Char (a / 4), b64Char (a % 4 * 16 + b / 16), b64Char (b % 16 * 4), '=']
  | a :: b :: c :: rest =>
      b64Char (a / 4) :: b64Char (a % 4 * 16 + b / 16) ::
      b64Char (b % 16 * 4 + c / 64) :: b64Char (c % 64) :: b64encode rest

/-- The iframe HTML of line 113. -/
def pdfIframeHtml (enc : String) : String :=
  "<iframe src=\"data:application/pdf;base64," ++ enc ++
  "\" width=\"100%\" height=\"700px\" type=\"application/pdf\"></iframe>"

/-- Warning text of line 116 (embed failed, download still possible). -/
def embedFailWarn (detail : String) : String :=
  "No se pudo incrustar el PDF en la pagina (aun puedes descargarlo).\nDetalle: " ++ detail

/-- Warning text of line 118. -/
def noPdfWarn : String :=
  "No hay PDF disponible para mostrar o descargar."

/-- Python truthiness of `pdf_bytes` at line 97: `None` and the empty byte
string `b\x22\x22` are falsy. -/
def bytesTruthy : Option (List Nat) → Bool
  | some bs => !bs.isEmpty
  | none => false

/-- `display_pdf_in_streamlit` (lines 93–118).  `embedOk` stands for
whether the base64-encode/markdown embedding step (the `try` of lines
111–114) succeeds; when it fails the `except` arm at line 115 emits a
non-fatal warning carrying the exception text `embedErr`. -/
def display_pdf_in_streamlit (pdf_bytes : Option (List Nat))
    (embedOk : Bool) (embedErr : String) : List Effect :=
  if bytesTruthy pdf_bytes then
    let bs := pdf_bytes.getD []
    Effect.downloadButton bs "documento_imei.pdf" "application/pdf" ::
      (if embedOk then [Effect.markdown (pdfIframeHtml (String.mk (b64encode bs)))]
       else [Effect.warn (embedFailWarn embedErr)])
  else [Effect.warn noPdfWarn]

/-- Warning text of line 142. -/
def enterImeiWarn : String := "Por favor, ingresa un IMEI."

/-- Warning text of line 144. -/
def invalidImeiWarn : String :=
  "El IMEI debe ser un numero de 15 digitos y contener solo numeros."

/-- Success text of line 153. -/
def foundMsg (imei : String) : String :=
  "IMEI '" ++ imei ++ "' encontrado. Intentando descargar el PDF..."

/-- Error text of line 157. -/
def notFoundMsg (imei : String) : String :=
  "No se encontro un documento PDF asociado al IMEI '" ++ imei ++ "' en la base de datos."

/-- Lines 149–157: what happens after `imei_data_map = get_google_sheet_data()`
returned `m?`.  `if imei_data_map:` is Python truthiness, so `None` and the
empty dict behave identically (nothing at all happens, line 158's comment
notwithstanding); `if pdf_url:` likewise treats a present-but-empty value
as a miss. -/
def searchBody (imei_input : String) (m? : Option Dict)
    (net : String → HttpOutcome) (embedOk : Bool) (embedErr : String) : List Effect :=
  match m? with
  | none => []
  | some m =>
      if m = [] then []
      else
        match dictGet m imei_input with
        | none => [Effect.errorMsg (notFoundMsg imei_input)]
        | some pdf_url =>
            if pdf_url = "" then [Effect.errorMsg (notFoundMsg imei_input)]
            else
              let fetched := download_pdf_as_bytes pdf_url (net pdf_url)
              Effect.successMsg (foundMsg imei_input) ::
                (fetched.2 ++ display_pdf_in_streamlit fetched.1 embedOk embedErr)

/-- The search-button handler (lines 140–158), with the data load performed
directly (uncached).  `sn`, `wn` are the configured spreadsheet/worksheet
names; `sheet` is what the data source does; `net` is what each GET does. -/
def runSearch (sn wn imei_input : String) (sheet : SheetResult)
    (net : String → HttpOutcome) (embedOk : Bool) (embedErr : String) : List Effect :=
  if imei_input = "" then [Effect.warn enterImeiWarn]
  else if imei_input.length ≠ 15 ∨ pyIsDigit imei_input = false then
    [Effect.warn invalidImeiWarn]
  else
    let loaded := get_google_sheet_data sn wn sheet
    loaded.2 ++ searchBody imei_input loaded.1 net embedOk embedErr

/-- Modelled from the spec: the process-wide cache that
`@st.cache_data(ttl=600)` (line 22) wraps around `get_google_sheet_data` is
framework code not in this repository.  Per the spec it is a single global
slot `(loaded_at, value)`; a call within the TTL window
(`now - loaded_at ≤ 600`) reuses the stored value without re-querying,
after expiry the next call recomputes and stores afresh. -/
structure CacheState where
  slot : Option (Nat × Option Dict)
  deriving DecidableEq, Repr

/-- Modelled from the spec: the cached call to `get_google_sheet_data`.
`compute` is the result (value and effect trace) the uncached function
would produce now; a cache hit replays neither its effects nor the read. -/
def cachedCall (cache : CacheState) (now : Nat)
    (compute : Option Dict × List Effect) :
    (Option Dict × List Effect) × CacheState :=
  match cache.slot with
  | some (t0, v) =>
      if now - t0 ≤ 600 then ((v, []), cache)
      else (compute, ⟨some (now, compute.1)⟩)
  | none => (compute, ⟨some (now, compute.1)⟩)

/-- The search-button handler with the TTL cache in front of the data load,
threading the cache slot and the current time `now` (seconds). -/
def runSearchCached (sn wn imei_input : String) (sheet : SheetResult)
    (net : String → HttpOutcome) (embedOk : Bool) (embedErr : String)
    (cache : CacheState) (now : Nat) : List Effect × CacheState :=
  if imei_input = "" then ([Effect.warn enterImeiWarn], cache)
  else if imei_input.length ≠ 15 ∨ pyIsDigit imei_input = false then
    ([Effect.warn invalidImeiWarn], cache)
  else
    let r := cachedCall cache now (get_google_sheet_data sn wn sheet)
    (r.1.2 ++ searchBody imei_input r.1.1 net embedOk embedErr, r.2)

/-- Is this effect the data-source read? -/
def isSheetRead : Effect → Bool
  | Effect.sheetRead => true
  | _ => false

/-- Is this effect an HTTP GET? -/
def isHttpGet : Effect → Bool
  | Effect.httpGet _ => true
  | _ => false

/-- Number of data-source reads in a trace. -/
def countReads (tr : List Effect) : Nat := (tr.filter isSheetRead).length

/-- Number of HTTP GETs in a trace. -/
def countGets (tr : List Effect) : Nat := (tr.filter isHttpGet).length

/-- `sub` occurs contiguously in `s`. -/
def strContains (s sub : String) : Prop := ∃ a b, s = a ++ sub ++ b

/-! ## Helper lemmas -/

theorem strContains_of_eq {s a sub b : String} (h : s = a ++ sub ++ b) :
    strContains s sub := ⟨a, b, h⟩

theorem dictGet_dictInsert (d : Dict) (k v k' : String) :
    dictGet (dictInsert d k v) k' = if k = k' then some v else dictGet d k' := by
  induction d with
  | nil => rfl
  | cons q rest ih =>
      obtain ⟨qk, qv⟩ := q
      by_cases hq : qk = k
      · subst hq
        by_cases hk : qk = k' <;> simp [dictInsert, dictGet, hk]
      · by_cases hk : qk = k'
        · have hkk : ¬(k = k') := fun h => hq (hk.trans h.symm)
          have hk'k : ¬(k' = k) := fun h => hkk h.symm
          simp [dictInsert, hq, dictGet, hk, hkk, hk'k]
        · simp [dictInsert, hq, dictGet, hk, ih]

theorem mem_dictInsert (d : Dict) (k v : String) (p : String × String)
    (h : p ∈ dictInsert d k v) : p = (k, v) ∨ p ∈ d := by
  induction d with
  | nil => simpa [dictInsert] using h
  | cons q rest ih =>
      obtain ⟨qk, qv⟩ := q
      by_cases hq : qk = k
      · rw [dictInsert, if_pos hq] at h
        rcases List.mem_cons.mp h with h | h
        · exact Or.inl h
        · exact Or.inr (List.mem_cons_of_mem _ h)
      · rw [dictInsert, if_neg hq] at h
        rcases List.mem_cons.mp h with h | h
        · exact Or.inr (h ▸ List.mem_cons_self _ _)
        · rcases ih h with h | h
          · exact Or.inl h
          · exact Or.inr (List.mem_cons_of_mem _ h)

theorem buildEntries_mem (l : List Row) (d m : Dict)
    (h : buildEntries l d = Except.ok m) :
    ∀ p ∈ m, p ∈ d ∨ ∃ row ∈ l, rowIncluded row = true ∧
      p.1 = rowKey row ∧ pyStrip (rowUrlVal row) = Except.ok p.2 := by
  induction l generalizing d with
  | nil =>
      cases h
      exact fun p hp => Or.inl hp
  | cons row rest ih =>
      intro p hp
      unfold buildEntries at h
      by_cases hinc : rowIncluded row = true
      · rw [if_pos hinc] at h
        rcases hstrip : pyStrip (rowUrlVal row) with e | v <;> rw [hstrip] at h
        · cases h
        · rcases ih _ h p hp with hd | ⟨r, hr, hrest⟩
          · rcases mem_dictInsert _ _ _ _ hd with hkv | hd2
            · refine Or.inr ⟨row, List.mem_cons_self _ _, hinc, ?_, ?_⟩
              · rw [hkv]
              · rw [hkv]
                exact hstrip
            · exact Or.inl hd2
          · exact Or.inr ⟨r, List.mem_cons_of_mem _ hr, hrest⟩
      · rw [if_neg hinc] at h
        rcases ih _ h p hp with hd | ⟨r, hr, hrest⟩
        · exact Or.inl hd
        · exact Or.inr ⟨r, List.mem_cons_of_mem _ hr, hrest⟩

theorem buildEntries_append_ok (l1 l2 : List Row) (d d1 : Dict)
    (h : buildEntries l1 d = Except.ok d1) :
    buildEntries (l1 ++ l2) d = buildEntries l2 d1 := by
  induction l1 generalizing d with
  | nil => cases h; rfl
  | cons row rest ih =>
      rw [List.cons_append]
      have hL : buildEntries (row :: (rest ++ l2)) d
          = if rowIncluded row then
              match pyStrip (rowUrlVal row) with
              | Except.error e => Except.error e
              | Except.ok v => buildEntries (rest ++ l2) (dictInsert d (rowKey row) v)
            else buildEntries (rest ++ l2) d := rfl
      rw [hL]
      unfold buildEntries at h
      by_cases hinc : rowIncluded row = true
      · rw [if_pos hinc] at h ⊢
        rcases hstrip : pyStrip (rowUrlVal row) with e | v <;> rw [hstrip] at h
        · cases h
        · exact ih _ h
      · rw [if_neg hinc] at h ⊢
        exact ih _ h

theorem buildEntries_split (l1 l2 : List Row) (d m : Dict)
    (h : buildEntries (l1 ++ l2) d = Except.ok m) :
    ∃ d1, buildEntries l1 d = Except.ok d1 ∧ buildEntries l2 d1 = Except.ok m := by
  induction l1 generalizing d with
  | nil => exact ⟨d, rfl, by simpa using h⟩
  | cons row rest ih =>
      rw [List.cons_append] at h
      unfold buildEntries at h
      by_cases hinc : rowIncluded row = true
      · rw [if_pos hinc] at h
        rcases hstrip : pyStrip (rowUrlVal row) with e | v <;> rw [hstrip] at h
        · cases h
        · obtain ⟨d1, h1, h2⟩ := ih _ h
          refine ⟨d1, ?_, h2⟩
          unfold buildEntries
          rw [if_pos hinc, hstrip]
          exact h1
      · rw [if_neg hinc] at h
        obtain ⟨d1, h1, h2⟩ := ih _ h
        refine ⟨d1, ?_, h2⟩
        unfold buildEntries
        rw [if_neg hinc]
        exact h1

theorem dictGet_buildEntries_skip (l : List Row) (d m : Dict) (k : String)
    (h : buildEntries l d = Except.ok m)
    (hskip : ∀ r ∈ l, rowIncluded r = true → rowKey r ≠ k) :
    dictGet m k = dictGet d k := by
  induction l generalizing d with
  | nil => cases h; rfl
  | cons row rest ih =>
      unfold buildEntries at h
      by_cases hinc : rowIncluded row = true
      · rw [if_pos hinc] at h
        rcases hstrip : pyStrip (rowUrlVal row) with e | v <;> rw [hstrip] at h
        · cases h
        · have hrec := ih _ h (fun r hr => hskip r (List.mem_cons_of_mem _ hr))
          rw [hrec, dictGet_dictInsert,
            if_neg (hskip row (List.mem_cons_self _ _) hinc)]
      · rw [if_neg hinc] at h
        exact ih _ h (fun r hr => hskip r (List.mem_cons_of_mem _ hr))

theorem countReads_append (t1 t2 : List Effect) :
    countReads (t1 ++ t2) = countReads t1 + countReads t2 := by
  simp [countReads, List.filter_append]

theorem countReads_download (url : String) (net : HttpOutcome) :
    countReads (download_pdf_as_bytes url net).2 = 0 := by
  rcases net with ⟨s, b⟩ | d
  · by_cases hs : raise_for_status s = true <;>
      simp [download_pdf_as_bytes, hs, countReads, isSheetRead]
  · simp [download_pdf_as_bytes, countReads, isSheetRead]

theorem countReads_display (b? : Option (List Nat)) (embedOk : Bool) (embedErr : String) :
    countReads (display_pdf_in_streamlit b? embedOk embedErr) = 0 := by
  by_cases hb : bytesTruthy b? = true <;>
    rcases embedOk with _ | _ <;>
      simp [display_pdf_in_streamlit, hb, countReads, isSheetRead]

theorem countReads_searchBody (i : String) (m? : Option Dict)
    (net : String → HttpOutcome) (embedOk : Bool) (embedErr : String) :
    countReads (searchBody i m? net embedOk embedErr) = 0 := by
  rcases m? with _ | m
  · rfl
  · by_cases hm : m = []
    · simp [searchBody, hm, countReads]
    · rcases hget : dictGet m i with _ | url
      · simp [searchBody, hm, hget, countReads, isSheetRead]
      · by_cases hu : url = ""
        · simp [searchBody, hm, hget, hu, countReads, isSheetRead]
        · simp only [searchBody, if_neg hm, hget, if_neg hu]
          rw [show ∀ x tr, countReads (Effect.successMsg (foundMsg i) :: (x ++ tr))
                = countReads (x ++ tr) from fun x tr => by simp [countReads, isSheetRead],
            countReads_append, countReads_download, countReads_display]

theorem countReads_load (sn wn : String) (sheet : SheetResult) :
    countReads (get_google_sheet_data sn wn sheet).2 = 1 := by
  rcases sheet with _ | _ | e | rows <;>
    try simp [get_google_sheet_data, countReads, isSheetRead]
  rcases hb : buildEntries rows [] with e | m <;>
    simp [get_google_sheet_data, hb, countReads, isSheetRead]

theorem pyIsDigit_ne_empty {input : String} (hdig : pyIsDigit input = true) :
    input ≠ "" := by
  intro h
  rw [h] at hdig
  exact absurd hdig (by decide)

theorem runSearch_valid (sn wn input : String) (sheet : SheetResult)
    (net : String → HttpOutcome) (embedOk : Bool) (embedErr : String)
    (hlen : input.length = 15) (hdig : pyIsDigit input = true) :
    runSearch sn wn input sheet net embedOk embedErr =
      (get_google_sheet_data sn wn sheet).2 ++
        searchBody input (get_google_sheet_data sn wn sheet).1 net embedOk embedErr := by
  rw [runSearch, if_neg (pyIsDigit_ne_empty hdig), if_neg (by simp [hlen, hdig])]

theorem runSearchCached_valid (sn wn input : String) (sheet : SheetResult)
    (net : String → HttpOutcome) (embedOk : Bool) (embedErr : String)
    (cache : CacheState) (now : Nat)
    (hlen : input.length = 15) (hdig : pyIsDigit input = true) :
    runSearchCached sn wn input sheet net embedOk embedErr cache now =
      ((cachedCall cache now (get_google_sheet_data sn wn sheet)).1.2 ++
        searchBody input (cachedCall cache now (get_google_sheet_data sn wn sheet)).1.1
          net embedOk embedErr,
       (cachedCall cache now (get_google_sheet_data sn wn sheet)).2) := by
  rw [runSearchCached, if_neg (pyIsDigit_ne_empty hdig), if_neg (by simp [hlen, hdig])]

/-! ## Claims -/

/-- C1: for every user input string that is empty, has length ≠ 15 or
contains a non-digit character, the search handler stops at validation with
a single warning; in particular no data-source read and no HTTP call is in
the trace. -/
theorem c1_invalid_input_rejected (sn wn input : String) (sheet : SheetResult)
    (net : String → HttpOutcome) (embedOk : Bool) (embedErr : String)
    (h : input = "" ∨ input.length ≠ 15 ∨ ∃ c ∈ input.data, c.isDigit = false) :
    (∃ w, runSearch sn wn input sheet net embedOk embedErr = [Effect.warn w]) ∧
    Effect.sheetRead ∉ runSearch sn wn input sheet net embedOk embedErr ∧
    ∀ u, Effect.httpGet u ∉ runSearch sn wn input sheet net embedOk embedErr := by
  have hbr : runSearch sn wn input sheet net embedOk embedErr = [Effect.warn enterImeiWarn]
      ∨ runSearch sn wn input sheet net embedOk embedErr = [Effect.warn invalidImeiWarn] := by
    by_cases h0 : input = ""
    · left
      rw [runSearch, if_pos h0]
    · right
      rcases h with h | h | h
      · exact absurd h h0
      · rw [runSearch, if_neg h0, if_pos (Or.inl h)]
      · have hall : input.data.all Char.isDigit = false := by
          rcases h with ⟨c, hc, hcd⟩
          cases hia : input.data.all Char.isDigit
          · rfl
          · exact absurd (List.all_eq_true.mp hia c hc) (by simp [hcd])
        have hdig : pyIsDigit input = false := by
          simp [pyIsDigit, hall]
        rw [runSearch, if_neg h0, if_pos (Or.inr hdig)]
  rcases hbr with hb | hb <;> rw [hb] <;>
    exact ⟨⟨_, rfl⟩, by simp, fun u => by simp⟩

/-- Witness for C1 at the spec's own rejected input "12345". -/
theorem c1_invalid_input_rejected_witness :
    (∃ w, runSearch "SS" "WW" "12345" (SheetResult.records [])
        (fun _ => HttpOutcome.netFailure "down") true "" = [Effect.warn w]) ∧
    Effect.sheetRead ∉ runSearch "SS" "WW" "12345" (SheetResult.records [])
        (fun _ => HttpOutcome.netFailure "down") true "" ∧
    ∀ u, Effect.httpGet u ∉ runSearch "SS" "WW" "12345" (SheetResult.records [])
        (fun _ => HttpOutcome.netFailure "down") true "" :=
  c1_invalid_input_rejected "SS" "WW" "12345" (SheetResult.records [])
    (fun _ => HttpOutcome.netFailure "down") true "" (Or.inr (Or.inl (by decide)))

/-- C3 as stated is false on the code: when `load()` succeeds with an EMPTY
mapping, the valid key "000000000000000" is not present in the loaded
mapping, yet the handler emits no "not found" message at all — the line-149
truthiness test `if imei_data_map:` sends the empty dict into the silent
branch.  (No HTTP fetch happens, but the promised message is missing.) -/
theorem c3_counterexample :
    dictGet [] "000000000000000" = none ∧
    runSearch "SS" "WW" "000000000000000" (SheetResult.records [])
        (fun _ => HttpOutcome.netFailure "down") true "" = [Effect.sheetRead] ∧
    ∀ msg, Effect.errorMsg msg ∉ runSearch "SS" "WW" "000000000000000"
        (SheetResult.records []) (fun _ => HttpOutcome.netFailure "down") true "" := by
  have he : runSearch "SS" "WW" "000000000000000" (SheetResult.records [])
      (fun _ => HttpOutcome.netFailure "down") true "" = [Effect.sheetRead] := by decide
  refine ⟨rfl, he, fun msg hmem => ?_⟩
  rw [he] at hmem
  simp at hmem

/-- C3 amended: for every validated 15-digit key not present in a loaded
NONEMPTY mapping, the search reports the "not found" message for that key
and performs no HTTP fetch. -/
theorem c3_miss_reports_not_found (sn wn input : String) (rows : List Row) (m : Dict)
    (net : String → HttpOutcome) (embedOk : Bool) (embedErr : String)
    (hlen : input.length = 15) (hdig : pyIsDigit input = true)
    (hm : buildEntries rows [] = Except.ok m) (hne : m ≠ [])
    (hmiss : dictGet m input = none) :
    runSearch sn wn input (SheetResult.records rows) net embedOk embedErr =
      [Effect.sheetRead, Effect.errorMsg (notFoundMsg input)] ∧
    ∀ u, Effect.httpGet u ∉ runSearch sn wn input (SheetResult.records rows)
      net embedOk embedErr := by
  have hload : get_google_sheet_data sn wn (SheetResult.records rows)
      = (some m, [Effect.sheetRead]) := by
    simp [get_google_sheet_data, hm]
  have he : runSearch sn wn input (SheetResult.records rows) net embedOk embedErr =
      [Effect.sheetRead, Effect.errorMsg (notFoundMsg input)] := by
    rw [runSearch_valid sn wn input _ net embedOk embedErr hlen hdig, hload]
    simp [searchBody, hne, hmiss]
  refine ⟨he, fun u hmem => ?_⟩
  rw [he] at hmem
  simp at hmem

/-- Witness for the amended C3: one loaded row, a different key searched. -/
theorem c3_miss_reports_not_found_witness :
    runSearch "SS" "WW" "000000000000000"
        (SheetResult.records [[("IMEI", PyVal.vStr "111111111111111"),
                               ("PDF_URL", PyVal.vStr "http://u")]])
        (fun _ => HttpOutcome.netFailure "down") true "" =
      [Effect.sheetRead, Effect.errorMsg (notFoundMsg "000000000000000")] ∧
    ∀ u, Effect.httpGet u ∉ runSearch "SS" "WW" "000000000000000"
        (SheetResult.records [[("IMEI", PyVal.vStr "111111111111111"),
                               ("PDF_URL", PyVal.vStr "http://u")]])
        (fun _ => HttpOutcome.netFailure "down") true "" :=
  c3_miss_reports_not_found "SS" "WW" "000000000000000"
    [[("IMEI", PyVal.vStr "111111111111111"), ("PDF_URL", PyVal.vStr "http://u")]]
    [("111111111111111", "http://u")]
    (fun _ => HttpOutcome.netFailure "down") true ""
    (by decide) (by decide) rfl (by decide) rfl

/-- C9: if `load()` succeeds but yields an empty mapping, a search for a
valid 15-digit key produces no user-visible output at all — no warning, no
error, no success message, and no HTTP fetch; the trace is exactly the
data-source read.  The line-149 truthiness test treats the empty snapshot
like a load failure. -/
theorem c9_empty_snapshot_silent (sn wn input : String) (rows : List Row)
    (net : String → HttpOutcome) (embedOk : Bool) (embedErr : String)
    (hlen : input.length = 15) (hdig : pyIsDigit input = true)
    (hempty : buildEntries rows [] = Except.ok []) :
    runSearch sn wn input (SheetResult.records rows) net embedOk embedErr
      = [Effect.sheetRead] ∧
    (∀ msg, Effect.warn msg ∉ runSearch sn wn input (SheetResult.records rows)
        net embedOk embedErr ∧
      Effect.errorMsg msg ∉ runSearch sn wn input (SheetResult.records rows)
        net embedOk embedErr ∧
      Effect.successMsg msg ∉ runSearch sn wn input (SheetResult.records rows)
        net embedOk embedErr) ∧
    ∀ u, Effect.httpGet u ∉ runSearch sn wn input (SheetResult.records rows)
      net embedOk embedErr := by
  have hload : get_google_sheet_data sn wn (SheetResult.records rows)
      = (some [], [Effect.sheetRead]) := by
    simp [get_google_sheet_data, hempty]
  have he : runSearch sn wn input (SheetResult.records rows) net embedOk embedErr
      = [Effect.sheetRead] := by
    rw [runSearch_valid sn wn input _ net embedOk embedErr hlen hdig, hload]
    simp [searchBody]
  refine ⟨he, fun msg => ⟨?_, ?_, ?_⟩, fun u => ?_⟩ <;>
    · intro hmem
      rw [he] at hmem
      simp at hmem

/-- Witness for C9: an empty record list loads to an empty mapping. -/
theorem c9_empty_snapshot_silent_witness :
    runSearch "SS" "WW" "000000000000001" (SheetResult.records [])
        (fun _ => HttpOutcome.netFailure "down") false "x" = [Effect.sheetRead] ∧
    (∀ msg, Effect.warn msg ∉ runSearch "SS" "WW" "000000000000001"
        (SheetResult.records []) (fun _ => HttpOutcome.netFailure "down") false "x" ∧
      Effect.errorMsg msg ∉ runSearch "SS" "WW" "000000000000001"
        (SheetResult.records []) (fun _ => HttpOutcome.netFailure "down") false "x" ∧
      Effect.successMsg msg ∉ runSearch "SS" "WW" "000000000000001"
        (SheetResult.records []) (fun _ => HttpOutcome.netFailure "down") false "x") ∧
    ∀ u, Effect.httpGet u ∉ runSearch "SS" "WW" "000000000000001"
      (SheetResult.records []) (fun _ => HttpOutcome.netFailure "down") false "x" :=
  c9_empty_snapshot_silent "SS" "WW" "000000000000001" []
    (fun _ => HttpOutcome.netFailure "down") false "x" (by decide) (by decide) rfl

/-- C2 as stated is false on the code, at one concrete record list.  The
first record has no identifier cell at all: `row.get` yields `None`,
`str(None)` is the truthy string "None", so the record is NOT skipped and
an entry with key "None" is produced.  The second record's identifier is a
whitespace-only string: truthy before stripping, so the snapshot gains the
EMPTY key "" — keys are not all non-empty. -/
theorem c2_counterexample :
    rowGet [("PDF_URL", PyVal.vStr "http://x")] IMEI_COLUMN_HEADER = PyVal.vNone ∧
    buildEntries [[("PDF_URL", PyVal.vStr "http://x")],
                  [("IMEI", PyVal.vStr " "), ("PDF_URL", PyVal.vStr " u ")]] []
      = Except.ok [("None", "http://x"), ("", "u")] ∧
    ("" : String) ∈ (["None", ""] : List String) := by
  exact ⟨rfl, rfl, by decide⟩

/-- C2 amended: every entry of a successfully built snapshot originates
from some record whose STRINGIFIED identifier (`str(row.get(...))`) is
non-empty and whose reference value is truthy; the entry's key is the
whitespace-trimmed stringified identifier (so a record with a missing
identifier column yields the key "None" rather than being skipped, and the
key may be the empty string when the identifier cell was all whitespace)
and its value is the whitespace-trimmed reference string.  Records with an
empty stringified identifier or a falsy reference value contribute
nothing. -/
theorem c2_snapshot_entries (rows : List Row) (m : Dict)
    (h : buildEntries rows [] = Except.ok m) :
    ∀ p ∈ m, ∃ row ∈ rows, rowIncluded row = true ∧
      p.1 = rowKey row ∧ pyStrip (rowUrlVal row) = Except.ok p.2 := by
  intro p hp
  rcases buildEntries_mem rows [] m h p hp with hd | hrow
  · cases hd
  · exact hrow

/-- Witness for the amended C2 on a one-row sheet. -/
theorem c2_snapshot_entries_witness :
    ∃ row ∈ [[("IMEI", PyVal.vStr "123456789012345"),
              ("PDF_URL", PyVal.vStr " http://u ")]],
      rowIncluded row = true ∧
      ("123456789012345", "http://u").1 = rowKey row ∧
      pyStrip (rowUrlVal row) = Except.ok ("123456789012345", "http://u").2 :=
  c2_snapshot_entries
    [[("IMEI", PyVal.vStr "123456789012345"), ("PDF_URL", PyVal.vStr " http://u ")]]
    [("123456789012345", "http://u")] rfl ("123456789012345", "http://u")
    (by decide)

/-- C8: when several records share the same trimmed key, the successfully
built snapshot maps that key to the trimmed reference value of the LAST
such record in row order: overwrite-on-insert, last-seen wins. -/
theorem c8_last_duplicate_wins (pre : List Row) (row : Row) (post : List Row)
    (m : Dict) (k v : String)
    (h : buildEntries (pre ++ row :: post) [] = Except.ok m)
    (hinc : rowIncluded row = true) (hkey : rowKey row = k)
    (hval : pyStrip (rowUrlVal row) = Except.ok v)
    (hlast : ∀ r ∈ post, rowIncluded r = true → rowKey r ≠ k) :
    dictGet m k = some v := by
  obtain ⟨d1, h1, h2⟩ := buildEntries_split pre (row :: post) [] m h
  unfold buildEntries at h2
  rw [if_pos hinc, hval] at h2
  rw [dictGet_buildEntries_skip post _ m k h2 hlast, dictGet_dictInsert, if_pos hkey]

/-- Witness for C8: two records sharing the trimmed key "111111111111111"
(the second written with surrounding whitespace, so trimming matters); the
lookup returns the second record's value "http://b". -/
theorem c8_last_duplicate_wins_witness :
    dictGet [("111111111111111", "http://b")] "111111111111111" = some "http://b" :=
  c8_last_duplicate_wins
    [[("IMEI", PyVal.vStr "111111111111111"), ("PDF_URL", PyVal.vStr "http://a")]]
    [("IMEI", PyVal.vStr " 111111111111111 "), ("PDF_URL", PyVal.vStr "http://b")]
    [] [("111111111111111", "http://b")] "111111111111111" "http://b"
    rfl (by decide) (by decide) rfl (by simp)

/-- C10: one record whose reference cell is a truthy non-string (here an
integer) makes `pdf_url.strip()` raise `AttributeError`; the generic
`except Exception` arm catches it, reports the generic error and returns
`None` — so that single malformed row discards every row of the table for
this load attempt, whatever stands before or after it. -/
theorem c10_malformed_row_discards_load (sn wn : String) (pre : List Row)
    (row : Row) (post : List Row) (d : Dict) (n : Int)
    (hpre : buildEntries pre [] = Except.ok d)
    (himei : rowImeiStr row ≠ "")
    (hurl : rowUrlVal row = PyVal.vInt n) (hn : n ≠ 0) :
    (get_google_sheet_data sn wn (SheetResult.records (pre ++ row :: post))).1 = none ∧
    Effect.errorMsg (genericLoadErrorMsg "AttributeError: int object has no attribute strip")
      ∈ (get_google_sheet_data sn wn (SheetResult.records (pre ++ row :: post))).2 := by
  have hinc : rowIncluded row = true := by
    simp [rowIncluded, himei, pyTruthy, hurl, hn]
  have herr : buildEntries (pre ++ row :: post) []
      = Except.error "AttributeError: int object has no attribute strip" := by
    rw [buildEntries_append_ok pre (row :: post) [] d hpre]
    unfold buildEntries
    rw [if_pos hinc, hurl]
    rfl
  constructor
  · simp [get_google_sheet_data, herr]
  · simp [get_google_sheet_data, herr]

/-- Witness for C10: a good row followed by a row whose PDF_URL cell is the
integer 7. -/
theorem c10_malformed_row_discards_load_witness :
    (get_google_sheet_data "SS" "WW" (SheetResult.records
      ([[("IMEI", PyVal.vStr "111111111111111"), ("PDF_URL", PyVal.vStr "http://a")]] ++
        [("IMEI", PyVal.vStr "222222222222222"), ("PDF_URL", PyVal.vInt 7)] :: []))).1 = none ∧
    Effect.errorMsg (genericLoadErrorMsg "AttributeError: int object has no attribute strip")
      ∈ (get_google_sheet_data "SS" "WW" (SheetResult.records
      ([[("IMEI", PyVal.vStr "111111111111111"), ("PDF_URL", PyVal.vStr "http://a")]] ++
        [("IMEI", PyVal.vStr "222222222222222"), ("PDF_URL", PyVal.vInt 7)] :: []))).2 :=
  c10_malformed_row_discards_load "SS" "WW"
    [[("IMEI", PyVal.vStr "111111111111111"), ("PDF_URL", PyVal.vStr "http://a")]]
    [("IMEI", PyVal.vStr "222222222222222"), ("PDF_URL", PyVal.vInt 7)]
    [] [("111111111111111", "http://a")] 7 rfl (by decide) rfl (by decide)

/-- C4: whenever `get_google_sheet_data` returns an absent result it has
reported an error to the user; the missing-spreadsheet and
missing-worksheet cases surface the configured name inside the error text;
the generic arm (any other exception, including one raised inside the row
loop) likewise reports and returns `None`.  The function is total — no
exception escapes it. -/
theorem c4_load_errors_surfaced (sn wn : String) (sheet : SheetResult) :
    ((get_google_sheet_data sn wn sheet).1 = none →
      ∃ msg, Effect.errorMsg msg ∈ (get_google_sheet_data sn wn sheet).2) ∧
    (sheet = SheetResult.spreadsheetNotFound →
      (get_google_sheet_data sn wn sheet).1 = none ∧
      Effect.errorMsg (spreadsheetNotFoundMsg sn) ∈ (get_google_sheet_data sn wn sheet).2 ∧
      strContains (spreadsheetNotFoundMsg sn) sn) ∧
    (sheet = SheetResult.worksheetNotFound →
      (get_google_sheet_data sn wn sheet).1 = none ∧
      Effect.errorMsg (worksheetNotFoundMsg sn wn) ∈ (get_google_sheet_data sn wn sheet).2 ∧
      strContains (worksheetNotFoundMsg sn wn) wn ∧
      strContains (worksheetNotFoundMsg sn wn) sn) ∧
    (∀ e, sheet = SheetResult.otherError e →
      (get_google_sheet_data sn wn sheet).1 = none ∧
      Effect.errorMsg (genericLoadErrorMsg e) ∈ (get_google_sheet_data sn wn sheet).2) ∧
    (∀ rows err, sheet = SheetResult.records rows →
      buildEntries rows [] = Except.error err →
      (get_google_sheet_data sn wn sheet).1 = none ∧
      Effect.errorMsg (genericLoadErrorMsg err) ∈ (get_google_sheet_data sn wn sheet).2) := by
  refine ⟨?_, ?_, ?_, ?_, ?_⟩
  · intro hnone
    rcases sheet with _ | _ | e | rows
    · exact ⟨spreadsheetNotFoundMsg sn, by simp [get_google_sheet_data]⟩
    · exact ⟨worksheetNotFoundMsg sn wn, by simp [get_google_sheet_data]⟩
    · exact ⟨genericLoadErrorMsg e, by simp [get_google_sheet_data]⟩
    · rcases hb : buildEntries rows [] with err | m
      · exact ⟨genericLoadErrorMsg err, by simp [get_google_sheet_data, hb]⟩
      · rw [show get_google_sheet_data sn wn (SheetResult.records rows)
            = (some m, [Effect.sheetRead]) by simp [get_google_sheet_data, hb]] at hnone
        cases hnone
  · intro hsp
    subst hsp
    refine ⟨rfl, by simp [get_google_sheet_data], ?_⟩
    exact ⟨"Error: La hoja de calculo '",
      "' no fue encontrada.\n" ++
        "Verifica el nombre y que la cuenta de servicio tiene permiso de 'Lector'.",
      by simp [spreadsheetNotFoundMsg, String.append_assoc]⟩
  · intro hw
    subst hw
    refine ⟨rfl, by simp [get_google_sheet_data], ?_, ?_⟩
    · exact ⟨"Error: La hoja de trabajo '",
        "' no fue encontrada en '" ++ sn ++ "'.\n" ++ "Verifica el nombre de la hoja.",
        by simp [worksheetNotFoundMsg, String.append_assoc]⟩
    · exact ⟨"Error: La hoja de trabajo '" ++ wn ++ "' no fue encontrada en '",
        "'.\n" ++ "Verifica el nombre de la hoja.",
        by simp [worksheetNotFoundMsg, String.append_assoc]⟩
  · intro e he
    subst he
    exact ⟨rfl, by simp [get_google_sheet_data]⟩
  · intro rows err hs hb
    subst hs
    exact ⟨by simp [get_google_sheet_data, hb], by simp [get_google_sheet_data, hb]⟩

/-- Witness for C4 at the missing-spreadsheet outcome. -/
theorem c4_load_errors_surfaced_witness :
    (get_google_sheet_data "Ventas" "Hoja1" SheetResult.spreadsheetNotFound).1 = none ∧
    Effect.errorMsg (spreadsheetNotFoundMsg "Ventas")
      ∈ (get_google_sheet_data "Ventas" "Hoja1" SheetResult.spreadsheetNotFound).2 ∧
    strContains (spreadsheetNotFoundMsg "Ventas") "Ventas" :=
  (c4_load_errors_surfaced "Ventas" "Hoja1" SheetResult.spreadsheetNotFound).2.1 rfl

/-- C5: `download_pdf_as_bytes` performs exactly one GET (no retry); a
response with status < 400 yields the full body as bytes and no error; a
response with status ≥ 400, and likewise any network-level failure, yields
no content and an error message naming the url (and, for a network
failure, the exception detail). -/
theorem c5_fetch_contract (url : String) (net : HttpOutcome) :
    countGets (download_pdf_as_bytes url net).2 = 1 ∧
    (∀ s b, net = HttpOutcome.response s b → s < 400 →
      download_pdf_as_bytes url net = (some b, [Effect.httpGet url])) ∧
    (∀ s b, net = HttpOutcome.response s b → 400 ≤ s →
      (download_pdf_as_bytes url net).1 = none ∧
      ∃ msg, Effect.errorMsg msg ∈ (download_pdf_as_bytes url net).2 ∧
        strContains msg url) ∧
    (∀ d, net = HttpOutcome.netFailure d →
      (download_pdf_as_bytes url net).1 = none ∧
      ∃ msg, Effect.errorMsg msg ∈ (download_pdf_as_bytes url net).2 ∧
        strContains msg url ∧ strContains msg d) := by
  refine ⟨?_, ?_, ?_, ?_⟩
  · rcases net with ⟨s, b⟩ | d
    · by_cases hs : raise_for_status s = true <;>
        simp [download_pdf_as_bytes, hs, countGets, isHttpGet]
    · simp [download_pdf_as_bytes, countGets, isHttpGet]
  · intro s b hnet hlt
    subst hnet
    have hs : raise_for_status s = false := by
      simp only [raise_for_status, decide_eq_false_iff_not]
      omega
    simp [download_pdf_as_bytes, hs]
  · intro s b hnet hge
    subst hnet
    have hs : raise_for_status s = true := by
      simp [raise_for_status, hge]
    refine ⟨by simp [download_pdf_as_bytes, hs], ?_⟩
    refine ⟨fetchErrorMsg url (httpErrorDetail s url), by simp [download_pdf_as_bytes, hs], ?_⟩
    exact ⟨"Error al descargar el PDF desde: ",
      "\nDetalle: " ++ httpErrorDetail s url,
      by simp [fetchErrorMsg, String.append_assoc]⟩
  · intro d hnet
    subst hnet
    refine ⟨rfl, fetchErrorMsg url d, by simp [download_pdf_as_bytes], ?_, ?_⟩
    · exact ⟨"Error al descargar el PDF desde: ", "\nDetalle: " ++ d,
        by simp [fetchErrorMsg, String.append_assoc]⟩
    · exact ⟨"Error al descargar el PDF desde: " ++ url ++ "\nDetalle: ", "",
        by simp [fetchErrorMsg, String.append_assoc]⟩

/-- Witness for C5 at a concrete 404 response. -/
theorem c5_fetch_contract_witness :
    (download_pdf_as_bytes "http://u" (HttpOutcome.response 404 [37, 80])).1 = none ∧
    ∃ msg, Effect.errorMsg msg
        ∈ (download_pdf_as_bytes "http://u" (HttpOutcome.response 404 [37, 80])).2 ∧
      strContains msg "http://u" :=
  (c5_fetch_contract "http://u" (HttpOutcome.response 404 [37, 80])).2.2.1
    404 [37, 80] rfl (by decide)

/-- C6 as stated is false on the code, at one concrete input: the EMPTY
byte string is present content (a successful fetch of an empty body yields
`b""`), yet line 97's truthiness test sends it to the "no content" branch —
warning, and no download action offered. -/
theorem c6_counterexample :
    display_pdf_in_streamlit (some []) true "" = [Effect.warn noPdfWarn] ∧
    ∀ d f mi, Effect.downloadButton d f mi ∉ display_pdf_in_streamlit (some []) true "" := by
  refine ⟨rfl, fun d f mi hmem => ?_⟩
  rw [show display_pdf_in_streamlit (some []) true "" = [Effect.warn noPdfWarn] from rfl] at hmem
  simp at hmem

/-- C6 amended: when the content is absent OR empty (falsy), the presenter
emits the "no content available" warning and offers no download action;
when the content is a non-empty byte string it offers a download action
serving exactly those bytes as `documento_imei.pdf` with MIME type
`application/pdf`, and a failure of the inline base64 embedding is
non-fatal: the warning is emitted and the download action is still in the
trace. -/
theorem c6_presenter_contract (pdf_bytes : Option (List Nat))
    (embedOk : Bool) (embedErr : String) :
    (bytesTruthy pdf_bytes = false →
      display_pdf_in_streamlit pdf_bytes embedOk embedErr = [Effect.warn noPdfWarn] ∧
      ∀ d f mi, Effect.downloadButton d f mi
        ∉ display_pdf_in_streamlit pdf_bytes embedOk embedErr) ∧
    (∀ bs, pdf_bytes = some bs → bs ≠ [] →
      Effect.downloadButton bs "documento_imei.pdf" "application/pdf"
        ∈ display_pdf_in_streamlit pdf_bytes embedOk embedErr ∧
      (embedOk = false →
        Effect.warn (embedFailWarn embedErr)
          ∈ display_pdf_in_streamlit pdf_bytes embedOk embedErr)) := by
  constructor
  · intro hfalsy
    have he : display_pdf_in_streamlit pdf_bytes embedOk embedErr
        = [Effect.warn noPdfWarn] := by
      rw [display_pdf_in_streamlit, hfalsy]
      simp
    refine ⟨he, fun d f mi hmem => ?_⟩
    rw [he] at hmem
    simp at hmem
  · intro bs hsome hne
    subst hsome
    have htru : bytesTruthy (some bs) = true := by
      simp [bytesTruthy, hne]
    have he : display_pdf_in_streamlit (some bs) embedOk embedErr
        = Effect.downloadButton bs "documento_imei.pdf" "application/pdf" ::
          (if embedOk then [Effect.markdown (pdfIframeHtml (String.mk (b64encode bs)))]
           else [Effect.warn (embedFailWarn embedErr)]) := by
      rw [display_pdf_in_streamlit, htru]
      simp
    constructor
    · rw [he]
      exact List.mem_cons_self _ _
    · intro hfail
      subst hfail
      rw [he]
      simp

/-- Witness for the amended C6: one byte of content, failing embed. -/
theorem c6_presenter_contract_witness :
    Effect.downloadButton [37] "documento_imei.pdf" "application/pdf"
      ∈ display_pdf_in_streamlit (some [37]) false "boom" ∧
    (false = false →
      Effect.warn (embedFailWarn "boom") ∈ display_pdf_in_streamlit (some [37]) false "boom") :=
  (c6_presenter_contract (some [37]) false "boom").2 [37] rfl (by decide)

/-- C7: with a cold cache, a first search at `t1` performs exactly one
data-source read and stores the load result at `t1`; a second search at
`t2` within the 600-second TTL window performs NO read, leaves the cache
untouched, and its whole trace is exactly the lookup part of the first
search's trace (identical lookup results for the same key); a search at
`t3` after the window has elapsed performs exactly one fresh read. -/
theorem c7_cache_ttl (sn wn input : String) (sheet : SheetResult)
    (net : String → HttpOutcome) (embedOk : Bool) (embedErr : String)
    (t1 t2 t3 : Nat)
    (hlen : input.length = 15) (hdig : pyIsDigit input = true)
    (h2 : t2 - t1 ≤ 600) (h3 : ¬(t3 - t1 ≤ 600)) :
    countReads (runSearchCached sn wn input sheet net embedOk embedErr ⟨none⟩ t1).1 = 1 ∧
    (runSearchCached sn wn input sheet net embedOk embedErr ⟨none⟩ t1).2
      = ⟨some (t1, (get_google_sheet_data sn wn sheet).1)⟩ ∧
    (runSearchCached sn wn input sheet net embedOk embedErr ⟨none⟩ t1).1
      = (get_google_sheet_data sn wn sheet).2 ++
        (runSearchCached sn wn input sheet net embedOk embedErr
          (runSearchCached sn wn input sheet net embedOk embedErr ⟨none⟩ t1).2 t2).1 ∧
    countReads (runSearchCached sn wn input sheet net embedOk embedErr
      (runSearchCached sn wn input sheet net embedOk embedErr ⟨none⟩ t1).2 t2).1 = 0 ∧
    (runSearchCached sn wn input sheet net embedOk embedErr
      (runSearchCached sn wn input sheet net embedOk embedErr ⟨none⟩ t1).2 t2).2
      = (runSearchCached sn wn input sheet net embedOk embedErr ⟨none⟩ t1).2 ∧
    countReads (runSearchCached sn wn input sheet net embedOk embedErr
      (runSearchCached sn wn input sheet net embedOk embedErr ⟨none⟩ t1).2 t3).1 = 1 := by
  have hc1 : cachedCall ⟨none⟩ t1 (get_google_sheet_data sn wn sheet)
      = (get_google_sheet_data sn wn sheet,
         ⟨some (t1, (get_google_sheet_data sn wn sheet).1)⟩) := rfl
  have hrun1 : runSearchCached sn wn input sheet net embedOk embedErr ⟨none⟩ t1
      = ((get_google_sheet_data sn wn sheet).2 ++
          searchBody input (get_google_sheet_data sn wn sheet).1 net embedOk embedErr,
         ⟨some (t1, (get_google_sheet_data sn wn sheet).1)⟩) := by
    rw [runSearchCached_valid sn wn input sheet net embedOk embedErr _ _ hlen hdig, hc1]
  have hs1 : (runSearchCached sn wn input sheet net embedOk embedErr ⟨none⟩ t1).2
      = ⟨some (t1, (get_google_sheet_data sn wn sheet).1)⟩ := by
    rw [hrun1]
  have hc2 : cachedCall ⟨some (t1, (get_google_sheet_data sn wn sheet).1)⟩ t2
        (get_google_sheet_data sn wn sheet)
      = (((get_google_sheet_data sn wn sheet).1, []),
         ⟨some (t1, (get_google_sheet_data sn wn sheet).1)⟩) := by
    simp [cachedCall, h2]
  have hrun2 : runSearchCached sn wn input sheet net embedOk embedErr
        (runSearchCached sn wn input sheet net embedOk embedErr ⟨none⟩ t1).2 t2
      = (searchBody input (get_google_sheet_data sn wn sheet).1 net embedOk embedErr,
         ⟨some (t1, (get_google_sheet_data sn wn sheet).1)⟩) := by
    rw [hs1, runSearchCached_valid sn wn input sheet net embedOk embedErr _ _ hlen hdig, hc2]
    simp
  have hc3 : cachedCall ⟨some (t1, (get_google_sheet_data sn wn sheet).1)⟩ t3
        (get_google_sheet_data sn wn sheet)
      = (get_google_sheet_data sn wn sheet,
         ⟨some (t3, (get_google_sheet_data sn wn sheet).1)⟩) := by
    simp [cachedCall, h3]
  have hrun3 : runSearchCached sn wn input sheet net embedOk embedErr
        (runSearchCached sn wn input sheet net embedOk embedErr ⟨none⟩ t1).2 t3
      = ((get_google_sheet_data sn wn sheet).2 ++
          searchBody input (get_google_sheet_data sn wn sheet).1 net embedOk embedErr,
         ⟨some (t3, (get_google_sheet_data sn wn sheet).1)⟩) := by
    rw [hs1, runSearchCached_valid sn wn input sheet net embedOk embedErr _ _ hlen hdig, hc3]
  refine ⟨?_, hs1, ?_, ?_, ?_, ?_⟩
  · rw [hrun1]
    simp only [countReads_append, countReads_load, countReads_searchBody]
  · rw [hrun2, hrun1]
  · rw [hrun2]
    simp only [countReads_searchBody]
  · rw [hrun2, hs1]
  · rw [hrun3]
    simp only [countReads_append, countReads_load, countReads_searchBody]

/-- Witness for C7: concrete one-row sheet, searches at seconds 0, 600 and
601. -/
theorem c7_cache_ttl_witness :
    countReads (runSearchCached "SS" "WW" "123456789012345"
      (SheetResult.records [[("IMEI", PyVal.vStr "123456789012345"),
                             ("PDF_URL", PyVal.vStr "http://u")]])
      (fun _ => HttpOutcome.response 200 [37, 80]) true "" ⟨none⟩ 0).1 = 1 ∧
    (runSearchCached "SS" "WW" "123456789012345"
      (SheetResult.records [[("IMEI", PyVal.vStr "123456789012345"),
                             ("PDF_URL", PyVal.vStr "http://u")]])
      (fun _ => HttpOutcome.response 200 [37, 80]) true "" ⟨none⟩ 0).2
      = ⟨some (0, (get_google_sheet_data "SS" "WW"
          (SheetResult.records [[("IMEI", PyVal.vStr "123456789012345"),
                                 ("PDF_URL", PyVal.vStr "http://u")]])).1)⟩ ∧
    (runSearchCached "SS" "WW" "123456789012345"
      (SheetResult.records [[("IMEI", PyVal.vStr "123456789012345"),
                             ("PDF_URL", PyVal.vStr "http://u")]])
      (fun _ => HttpOutcome.response 200 [37, 80]) true "" ⟨none⟩ 0).1
      = (get_google_sheet_data "SS" "WW"
          (SheetResult.records [[("IMEI", PyVal.vStr "123456789012345"),
                                 ("PDF_URL", PyVal.vStr "http://u")]])).2 ++
        (runSearchCached "SS" "WW" "123456789012345"
          (SheetResult.records [[("IMEI", PyVal.vStr "123456789012345"),
                                 ("PDF_URL", PyVal.vStr "http://u")]])
          (fun _ => HttpOutcome.response 200 [37, 80]) true ""
          (runSearchCached "SS" "WW" "123456789012345"
            (SheetResult.records [[("IMEI", PyVal.vStr "123456789012345"),
                                   ("PDF_URL", PyVal.vStr "http://u")]])
            (fun _ => HttpOutcome.response 200 [37, 80]) true "" ⟨none⟩ 0).2 600).1 ∧
    countReads (runSearchCached "SS" "WW" "123456789012345"
      (SheetResult.records [[("IMEI", PyVal.vStr "123456789012345"),
                             ("PDF_URL", PyVal.vStr "http://u")]])
      (fun _ => HttpOutcome.response 200 [37, 80]) true ""
      (runSearchCached "SS" "WW" "123456789012345"
        (SheetResult.records [[("IMEI", PyVal.vStr "123456789012345"),
                               ("PDF_URL", PyVal.vStr "http://u")]])
        (fun _ => HttpOutcome.response 200 [37, 80]) true "" ⟨none⟩ 0).2 600).1 = 0 ∧
    (runSearchCached "SS" "WW" "123456789012345"
      (SheetResult.records [[("IMEI", PyVal.vStr "123456789012345"),
                             ("PDF_URL", PyVal.vStr "http://u")]])
      (fun _ => HttpOutcome.response 200 [37, 80]) true ""
      (runSearchCached "SS" "WW" "123456789012345"
        (SheetResult.records [[("IMEI", PyVal.vStr "123456789012345"),
                               ("PDF_URL", PyVal.vStr "http://u")]])
        (fun _ => HttpOutcome.response 200 [37, 80]) true "" ⟨none⟩ 0).2 600).2
      = (runSearchCached "SS" "WW" "123456789012345"
          (SheetResult.records [[("IMEI", PyVal.vStr "123456789012345"),
                                 ("PDF_URL", PyVal.vStr "http://u")]])
          (fun _ => HttpOutcome.response 200 [37, 80]) true "" ⟨none⟩ 0).2 ∧
    countReads (runSearchCached "SS" "WW" "123456789012345"
      (SheetResult.records [[("IMEI", PyVal.vStr "123456789012345"),
                             ("PDF_URL", PyVal.vStr "http://u")]])
      (fun _ => HttpOutcome.response 200 [37, 80]) true ""
      (runSearchCached "SS" "WW" "123456789012345"
        (SheetResult.records [[("IMEI", PyVal.vStr "123456789012345"),
                               ("PDF_URL", PyVal.vStr "http://u")]])
        (fun _ => HttpOutcome.response 200 [37, 80]) true "" ⟨none⟩ 0).2 601).1 = 1 :=
  c7_cache_ttl "SS" "WW" "123456789012345"
    (SheetResult.records [[("IMEI", PyVal.vStr "123456789012345"),
                           ("PDF_URL", PyVal.vStr "http://u")]])
    (fun _ => HttpOutcome.response 200 [37, 80]) true "" 0 600 601
    (by decide) (by decide) (by decide) (by decide)

end ImeiApp
